import Mathlib

/-!
# LINE random-movie bot: a shallow embedding of `server.go`

The bot's handlers are embedded as pure functions over an explicit `World`
(the package variable `lastMovie`, the reply requests handed to the messaging
API, and the catalog URLs requested) and an `Env` of outcomes for everything
the process does not control: the HTTP transport, the JSON decoder, the random
source and the delivery of replies.  Log lines are not part of the state.
-/

namespace LineBot

/-! ## Data model -/

/-- Movie record of `server.go` (`type Movie struct`); the zero value has three
empty strings. -/
structure Movie where
  Title : String := ""
  Poster : String := ""
  Overview : String := ""
deriving DecidableEq, Repr

/-- The `messaging_api.MessageAction` values the bot builds: a label and the
text sent on the user's behalf when the action is tapped. -/
structure MessageAction where
  Label : String
  Text : String
deriving DecidableEq, Repr

/-- One `messaging_api.QuickReplyItem`; the bot only ever puts a
`MessageAction` in it. -/
structure QuickReplyItem where
  Action : MessageAction
deriving DecidableEq, Repr

/-- The `messaging_api.QuickReply` attached to a text message. -/
structure QuickReply where
  Items : List QuickReplyItem
deriving DecidableEq, Repr

/-- One `messaging_api.CarouselColumn`. -/
structure CarouselColumn where
  ThumbnailImageUrl : String
  Title : String
  Text : String
  Actions : List MessageAction
deriving DecidableEq, Repr

/-- The two message shapes the bot sends.  `QuickReply` is a pointer in Go,
`none` stands for nil; the template of a `TemplateMessage` is always a
`CarouselTemplate`, given by its columns. -/
inductive MessageInterface where
  | TextMessage (Text : String) (QuickReply : Option QuickReply)
  | TemplateMessage (AltText : String) (Columns : List CarouselColumn)
      (QuickReply : Option QuickReply)
deriving DecidableEq, Repr

/-- The `messaging_api.ReplyMessageRequest` handed to `bot.ReplyMessage`. -/
structure ReplyMessageRequest where
  ReplyToken : String
  Messages : List MessageInterface
deriving DecidableEq, Repr

/-- Dynamic type of the value held in `MessageEvent.Message`, as far as the
type switch of `HandleEvents` tells them apart.  `FollowEvent` is a value of
type `webhook.FollowEvent` stored in the message field: the inner type switch
has a case for it, although the webhook decoder only stores message contents
there. -/
inductive MessageContent where
  | FollowEvent
  | TextMessageContent (Text : String)
  | other
deriving DecidableEq, Repr

/-- Dynamic type of one webhook event, as far as the type switch of
`HandleEvents` tells them apart: a message event, a follow event (a user
added the bot), anything else. -/
inductive Event where
  | MessageEvent (ReplyToken : String) (Message : MessageContent)
  | FollowEvent (ReplyToken : String)
  | other
deriving DecidableEq, Repr

/-- An HTTP response, reduced to what `io.ReadAll(resp.Body)` yields: the body
or a read error. -/
structure Response where
  body : Except String String

/-- Everything outside the process.  The transport, the random source and the
delivery are indexed by the number of earlier calls, so that their outcomes
may change from one call to the next. -/
structure Env where
  /-- Value of `os.Getenv("TMDB_API_KEY")`. -/
  apiKey : String
  /-- Outcome of the k-th `http.Get`, for the URL requested. -/
  httpGet : Nat → String → Except String Response
  /-- Outcome of `json.Unmarshal` into the anonymous results struct. -/
  unmarshal : String → Except String (List Movie)
  /-- Raw draw accepted by `rand.Intn` during the k-th fetch. -/
  randDraw : Nat → Nat
  /-- Error (or nil) returned by the k-th `bot.ReplyMessage`. -/
  replyMessage : Nat → ReplyMessageRequest → Option String

/-- State of the process and the trace of its outbound calls. -/
structure World where
  /-- The package variable `lastMovie`. -/
  lastMovie : Movie
  /-- Every request passed to `bot.ReplyMessage`, oldest first. -/
  outbox : List ReplyMessageRequest
  /-- Every URL passed to `http.Get`, oldest first. -/
  requests : List String
deriving DecidableEq, Repr

/-- State at process start: `var lastMovie Movie` is the zero Movie and nothing
has been sent. -/
def initWorld : World := { lastMovie := {}, outbox := [], requests := [] }

/-! ## Outbound calls -/

/-- The call `app.bot.ReplyMessage(req)`: the request is recorded, the error is
what the environment answers to this call. -/
def ReplyMessage (env : Env) (w : World) (req : ReplyMessageRequest) :
    Option String × World :=
  (env.replyMessage w.outbox.length req, { w with outbox := w.outbox ++ [req] })

/-- The request built in the `webhook.FollowEvent` case of `HandleEvents`. -/
def greetingRequest (replyToken : String) : ReplyMessageRequest :=
  { ReplyToken := replyToken,
    Messages := [
      .TextMessage "สวัสดีครับ! หากคุณนึกไม่ออกว่าจะดูอะไร เราจะช่วยคุณเอง!"
        (some { Items := [
          { Action := { Label := "สุ่มหนัง", Text := "สุ่มหนัง" } },
          { Action := { Label := "สุ่มหนังรัก", Text := "สุ่มหนังรัก" } },
          { Action := { Label := "สุ่มหนังตลก", Text := "สุ่มหนังตลก" } },
          { Action := { Label := "สุ่มหนังผี", Text := "สุ่มหนังผี" } } ] }) ] }

/-- The request built by `sendMovieTemplate`. -/
def movieTemplateRequest (replyToken : String) (randomMovie : Movie) :
    ReplyMessageRequest :=
  let imageURL := "https://image.tmdb.org/t/p/w500/" ++ randomMovie.Poster
  { ReplyToken := replyToken,
    Messages := [
      .TemplateMessage "ส่งหนังให้คุณ"
        [ { ThumbnailImageUrl := imageURL,
            Title := randomMovie.Title,
            Text := "  ",
            Actions := [ { Label := "เรื่องย่อ", Text := "ขอเรื่องย่อหน่อย" } ] },
          { ThumbnailImageUrl := imageURL,
            Title := randomMovie.Title,
            Text := "  ",
            Actions := [ { Label := "เรื่องย่อ", Text := "ขอเรื่องย่อหน่อย" } ] } ]
        none,
      .TextMessage "หวังว่าคุณจะชอบนะ"
        (some { Items := [
          { Action := { Label := "สุ่มหนัง", Text := "สุ่มหนัง" } },
          { Action := { Label := "สุ่มหนังรัก", Text := "สุ่มหนังรัก" } },
          { Action := { Label := "สุ่มหนังตลก", Text := "สุ่มหนังตลก" } },
          { Action := { Label := "สุ่มหนังผี", Text := "สุ่มหนังผี" } } ] }) ] }

/-- The method `sendMovieTemplate`: one `ReplyMessage`, whose error is
returned. -/
def sendMovieTemplate (env : Env) (w : World) (replyToken : String)
    (randomMovie : Movie) : Option String × World :=
  ReplyMessage env w (movieTemplateRequest replyToken randomMovie)

/-- The request built at the end of `handleText` around `responseText`. -/
def textRequest (replyToken : String) (responseText : String) :
    ReplyMessageRequest :=
  { ReplyToken := replyToken,
    Messages := [
      .TextMessage responseText
        (some { Items := [
          { Action := { Label := "สุ่มหนัง", Text := "สุ่มหนัง" } },
          { Action := { Label := "สุ่มหนังรัก", Text := "สุ่มหนังรัก" } },
          { Action := { Label := "สุ่มหนังตลก", Text := "สุ่มหนังตลก" } },
          { Action := { Label := "สุ่มหนังผี", Text := "สุ่มหนังผี" } } ] }) ] }

/-! ## Movie client -/

/-- The `switch genre` of `fetchRandomMovie`: the catalog URL of a recognized
genre, `none` for the `default` arm, which returns before any URL exists. -/
def genreURL (apiKey : String) (genre : String) : Option String :=
  if genre = "romance" then
    some ("https://api.themoviedb.org/3/discover/movie?api_key=" ++ apiKey
      ++ "&with_genres=10749&language=th-TH")
  else if genre = "comedy" then
    some ("https://api.themoviedb.org/3/discover/movie?api_key=" ++ apiKey
      ++ "&with_genres=35&language=th-TH")
  else if genre = "horror" then
    some ("https://api.themoviedb.org/3/discover/movie?api_key=" ++ apiKey
      ++ "&with_genres=27&language=th-TH")
  else if genre = "all" then
    some ("https://api.themoviedb.org/3/movie/popular?api_key=" ++ apiKey
      ++ "&language=th-TH")
  else
    none

/-- Result of `rand.Intn(n)` for `n > 0`: the accepted raw draw reduced modulo
`n` (for a power of two the mask `v & (n-1)` is the same number). -/
def Intn (draw n : Nat) : Nat := draw % n

/-- The method `fetchRandomMovie`.  The pair is Go's `(Movie, error)`, `none`
for a nil error.  The slice index carries the proof that it is in range: the
`len(result.Results) == 0` guard is what makes `rand.Intn` and the indexing
safe. -/
def fetchRandomMovie (env : Env) (w : World) (genre : String) :
    (Movie × Option String) × World :=
  match genreURL env.apiKey genre with
  | none => (({}, some "genre not recognized"), w)
  | some url =>
    let w1 : World := { w with requests := w.requests ++ [url] }
    match env.httpGet w.requests.length url with
    | .error err => (({}, some err), w1)
    | .ok resp =>
      match resp.body with
      | .error err => (({}, some err), w1)
      | .ok body =>
        match env.unmarshal body with
        | .error err => (({}, some err), w1)
        | .ok results =>
          if h : results.length = 0 then
            (({}, some "no movies found"), w1)
          else
            let randomIndex := Intn (env.randDraw w.requests.length) results.length
            ((results.get ⟨randomIndex, Nat.mod_lt _ (Nat.pos_of_ne_zero h)⟩, none), w1)

/-! ## Text handler -/

/-- The `switch message.Text` of `handleText`: the pair `(genre, responseText)`
it leaves behind, both initially empty. -/
def classify (lastMovie : Movie) (text : String) : String × String :=
  if text = "สุ่มหนัง" then ("all", "")
  else if text = "สุ่มหนังรัก" then ("romance", "")
  else if text = "สุ่มหนังตลก" then ("comedy", "")
  else if text = "สุ่มหนังผี" then ("horror", "")
  else if text = "ขอเรื่องย่อหน่อย" then
    if lastMovie.Title = "" then ("", "ยังไม่มีหนังที่สุ่มมา")
    else ("", "เรื่องย่อ: " ++ lastMovie.Overview)
  else ("", text)

/-- The `if genre != ""` block of `handleText`: fetch, store, send the
carousel; returns the response text it leaves behind. -/
def genreStep (env : Env) (w : World) (genre responseText replyToken : String) :
    String × World :=
  if genre ≠ "" then
    match fetchRandomMovie env w genre with
    | ((_, some _), w1) =>
      ("เกิดข้อผิดพลาดไม่สามารถดึงข้อมูลหนังได้ ลองใหม่อีกครั้ง", w1)
    | ((randomMovie, none), w1) =>
      let w2 : World := { w1 with lastMovie := randomMovie }
      match sendMovieTemplate env w2 replyToken randomMovie with
      | (some _, w3) => ("เกิดข้อผิดพลาดในการส่งข้อความ", w3)
      | (none, w3) => (responseText, w3)
  else
    (responseText, w)

/-- The method `handleText`; the first component is the returned error. -/
def handleText (env : Env) (w : World) (text replyToken : String) :
    Option String × World :=
  let (genre, responseText) := classify w.lastMovie text
  let (responseText, w) := genreStep env w genre responseText replyToken
  if responseText ≠ "" then
    match ReplyMessage env w (textRequest replyToken responseText) with
    | (some err, w) => (some err, w)
    | (none, w) => (none, w)
  else
    (none, w)

/-! ## Webhook handler -/

/-- Body of the `for _, event := range req.Events` loop of `HandleEvents` for
one event.  Errors are logged, never returned. -/
def handleEvent (env : Env) (w : World) (event : Event) : World :=
  match event with
  | .MessageEvent replyToken message =>
    match message with
    | .FollowEvent => (ReplyMessage env w (greetingRequest replyToken)).2
    | .TextMessageContent text => (handleText env w text replyToken).2
    | .other => w
  | _ => w

/-- The loop of `HandleEvents` over the events of the batch. -/
def eventLoop (env : Env) (w : World) : List Event → World
  | [] => w
  | event :: rest => eventLoop env (handleEvent env w event) rest

/-- The method `HandleEvents`, given the outcome of `webhook.ParseRequest`
(signature check and decoding): the HTTP status set on the context and the
world afterwards. -/
def HandleEvents (env : Env) (w : World) (parsed : Except String (List Event)) :
    Nat × World :=
  match parsed with
  | .error _ => (400, w)
  | .ok events => (200, eventLoop env w events)

/-! ## Reference values for the statements -/

/-- The quick-reply menu named by the specification: the four genre triggers
in order, each a message action whose label is its text. -/
def quickReplyMenu : QuickReply :=
  { Items := ["สุ่มหนัง", "สุ่มหนังรัก", "สุ่มหนังตลก", "สุ่มหนังผี"].map
      (fun t => { Action := { Label := t, Text := t } }) }

/-- The quick reply carried by the last message of a request, if any. -/
def lastQuickReply (req : ReplyMessageRequest) : Option QuickReply :=
  match req.Messages.getLast? with
  | some (.TextMessage _ q) => q
  | some (.TemplateMessage _ _ q) => q
  | none => none

/-- A sample movie, titled "X". -/
def sampleMovie : Movie := { Title := "X", Poster := "x.jpg", Overview := "A plot." }

/-- A sample environment: every transport call returns the body `"one"`, which
decodes to a single movie, and every delivery succeeds. -/
def sampleEnv (m : Movie) : Env :=
  { apiKey := "k",
    httpGet := fun _ _ => .ok { body := .ok "one" },
    unmarshal := fun _ => .ok [m],
    randDraw := fun k => k + 7,
    replyMessage := fun _ _ => none }

/-- A sample environment in which the transport always fails and every
delivery fails. -/
def failingEnv : Env :=
  { apiKey := "k",
    httpGet := fun _ _ => .error "dial tcp: timeout",
    unmarshal := fun _ => .error "unexpected end of JSON input",
    randDraw := fun _ => 0,
    replyMessage := fun _ _ => some "invalid reply token" }

/-- The four genre triggers with the genre each one selects, as the
specification lists them. -/
def genreTriggers : List (String × String) :=
  [("สุ่มหนัง", "all"), ("สุ่มหนังรัก", "romance"), ("สุ่มหนังตลก", "comedy"),
   ("สุ่มหนังผี", "horror")]

/-- The five trigger phrases: the four genre triggers and the synopsis
trigger. -/
def triggerPhrases : List String :=
  ["สุ่มหนัง", "สุ่มหนังรัก", "สุ่มหนังตลก", "สุ่มหนังผี", "ขอเรื่องย่อหน่อย"]

/-! ## Intent classification -/

/-- C1: classification is by exact match: each genre trigger selects its genre
and leaves the response text empty, the synopsis trigger selects no genre and
the synopsis text, and every other string selects no genre and is its own
response text. -/
theorem classify_exact (lastMovie : Movie) :
    classify lastMovie "สุ่มหนัง" = ("all", "") ∧
    classify lastMovie "สุ่มหนังรัก" = ("romance", "") ∧
    classify lastMovie "สุ่มหนังตลก" = ("comedy", "") ∧
    classify lastMovie "สุ่มหนังผี" = ("horror", "") ∧
    classify lastMovie "ขอเรื่องย่อหน่อย" =
      ("", if lastMovie.Title = "" then "ยังไม่มีหนังที่สุ่มมา"
           else "เรื่องย่อ: " ++ lastMovie.Overview) ∧
    ∀ t : String, t ∉ triggerPhrases → classify lastMovie t = ("", t) := by
  refine ⟨by simp [classify], by simp [classify], by simp [classify],
    by simp [classify], ?_, ?_⟩
  · by_cases h : lastMovie.Title = "" <;> simp [classify, h]
  · intro t ht
    simp only [triggerPhrases, List.mem_cons, List.mem_singleton, List.mem_nil_iff,
      or_false, not_or] at ht
    obtain ⟨h1, h2, h3, h4, h5⟩ := ht
    simp [classify, h1, h2, h3, h4, h5]

/-- Witness for C1 at the text "hello", which is echoed. -/
theorem classify_exact_witness :
    "hello" ∉ triggerPhrases ∧ classify {} "hello" = ("", "hello") :=
  ⟨by decide, (classify_exact {}).2.2.2.2.2 "hello" (by decide)⟩

/-! ## Shared facts about the handlers -/

/-- The classifier selects no genre outside the four genre triggers. -/
theorem classify_no_genre (lastMovie : Movie) (t : String)
    (h1 : t ≠ "สุ่มหนัง") (h2 : t ≠ "สุ่มหนังรัก") (h3 : t ≠ "สุ่มหนังตลก")
    (h4 : t ≠ "สุ่มหนังผี") : (classify lastMovie t).1 = "" := by
  unfold classify
  simp only [h1, h2, h3, h4, if_false]
  split
  · split <;> rfl
  · rfl

/-- Outside the five trigger phrases the classifier selects no genre and takes
the text itself as response text. -/
theorem classify_other (lastMovie : Movie) (t : String) (ht : t ∉ triggerPhrases) :
    classify lastMovie t = ("", t) := by
  simp only [triggerPhrases, List.mem_cons, List.mem_singleton, List.mem_nil_iff,
    or_false, not_or] at ht
  obtain ⟨h1, h2, h3, h4, h5⟩ := ht
  simp [classify, h1, h2, h3, h4, h5]

/-- The classifier maps each genre trigger to its genre and an empty response
text. -/
theorem classify_genre (lastMovie : Movie) (t g : String)
    (h : (t, g) ∈ genreTriggers) : classify lastMovie t = (g, "") := by
  simp only [genreTriggers, List.mem_cons, List.mem_singleton, List.mem_nil_iff,
    or_false, Prod.mk.injEq] at h
  rcases h with ⟨rfl, rfl⟩ | ⟨rfl, rfl⟩ | ⟨rfl, rfl⟩ | ⟨rfl, rfl⟩ <;> simp [classify]

/-- Every genre of the trigger table is non-empty and has a catalog URL. -/
theorem genre_recognized (apiKey t g : String) (h : (t, g) ∈ genreTriggers) :
    g ≠ "" ∧ ∃ url, genreURL apiKey g = some url := by
  simp only [genreTriggers, List.mem_cons, List.mem_singleton, List.mem_nil_iff,
    or_false, Prod.mk.injEq] at h
  rcases h with ⟨rfl, rfl⟩ | ⟨rfl, rfl⟩ | ⟨rfl, rfl⟩ | ⟨rfl, rfl⟩ <;>
    exact ⟨by decide, by simp [genreURL]⟩

/-- The movie client never touches the session slot or the outbox. -/
theorem fetchRandomMovie_frame (env : Env) (w : World) (genre : String) :
    (fetchRandomMovie env w genre).2.lastMovie = w.lastMovie ∧
    (fetchRandomMovie env w genre).2.outbox = w.outbox := by
  unfold fetchRandomMovie
  repeat' split
  all_goals exact ⟨rfl, rfl⟩

/-- The text handler in two steps: the genre block, then the text reply when a
response text is left. -/
theorem handleText_eq (env : Env) (w : World) (t replyToken : String) :
    handleText env w t replyToken =
      if (genreStep env w (classify w.lastMovie t).1 (classify w.lastMovie t).2
            replyToken).1 ≠ "" then
        ReplyMessage env
          (genreStep env w (classify w.lastMovie t).1 (classify w.lastMovie t).2
            replyToken).2
          (textRequest replyToken
            (genreStep env w (classify w.lastMovie t).1 (classify w.lastMovie t).2
              replyToken).1)
      else
        (none, (genreStep env w (classify w.lastMovie t).1 (classify w.lastMovie t).2
            replyToken).2) := by
  unfold handleText
  simp only []
  split
  · generalize ReplyMessage env _ _ = r
    rcases r with ⟨_ | e, w'⟩ <;> rfl
  · rfl

/-- The genre block does nothing when no genre was selected. -/
theorem genreStep_no_genre (env : Env) (w : World) (responseText replyToken : String) :
    genreStep env w "" responseText replyToken = (responseText, w) := by
  simp [genreStep]

/-- The genre block when the fetch fails: the fetch-error text, the session
slot untouched. -/
theorem genreStep_fetch_error (env : Env) (w w1 : World)
    (genre responseText replyToken err : String) (m : Movie) (hg : genre ≠ "")
    (hf : fetchRandomMovie env w genre = ((m, some err), w1)) :
    genreStep env w genre responseText replyToken =
      ("เกิดข้อผิดพลาดไม่สามารถดึงข้อมูลหนังได้ ลองใหม่อีกครั้ง", w1) := by
  simp [genreStep, hg, hf]

/-- The genre block when the fetch succeeds: the movie is stored, the carousel
is sent, and the delivery-error text is left only when that delivery fails. -/
theorem genreStep_fetch_ok (env : Env) (w w1 : World)
    (genre responseText replyToken : String) (m : Movie) (hg : genre ≠ "")
    (hf : fetchRandomMovie env w genre = ((m, none), w1)) :
    genreStep env w genre responseText replyToken =
      (match env.replyMessage w1.outbox.length (movieTemplateRequest replyToken m) with
        | some _ => "เกิดข้อผิดพลาดในการส่งข้อความ"
        | none => responseText,
       { w1 with lastMovie := m,
                 outbox := w1.outbox ++ [movieTemplateRequest replyToken m] }) := by
  simp only [genreStep, hg, ne_eq, not_false_eq_true, if_true, hf, sendMovieTemplate,
    ReplyMessage]
  cases env.replyMessage w1.outbox.length (movieTemplateRequest replyToken m) <;> rfl

/-! ## Unrecognized text -/

/-- C2 (as amended): for every text that is none of the five trigger phrases,
if the text is non-empty the handler makes exactly one reply call, addressed to
the event's reply token and carrying the inbound text, returns that call's
error, and changes nothing else; if the text is empty the handler makes no
call and returns no error. -/
theorem handleText_echo (env : Env) (w : World) (t replyToken : String)
    (ht : t ∉ triggerPhrases) :
    (t ≠ "" →
      handleText env w t replyToken =
        (env.replyMessage w.outbox.length (textRequest replyToken t),
         { w with outbox := w.outbox ++ [textRequest replyToken t] })) ∧
    (t = "" → handleText env w t replyToken = (none, w)) := by
  have hc : classify w.lastMovie t = ("", t) := classify_other w.lastMovie t ht
  constructor
  · intro hne
    rw [handleText_eq, hc, genreStep_no_genre]
    simp only [ne_eq, hne, not_false_eq_true, if_true]
    rfl
  · intro he
    rw [handleText_eq, hc, genreStep_no_genre]
    simp [he]

/-- Witness for C2 at the text "hello" in the initial state, while every
delivery fails. -/
theorem handleText_echo_witness :
    handleText failingEnv initWorld "hello" "tok" =
      (failingEnv.replyMessage initWorld.outbox.length (textRequest "tok" "hello"),
       { initWorld with outbox := initWorld.outbox ++ [textRequest "tok" "hello"] }) :=
  (handleText_echo failingEnv initWorld "hello" "tok" (by decide)).1 (by decide)

/-- C2 (as stated) fails at the empty text: it is none of the five trigger
phrases, and the handler returns without making any reply call. -/
theorem handleText_empty_text_no_reply :
    "" ∉ triggerPhrases ∧
    handleText (sampleEnv {}) initWorld "" "tok" = (none, initWorld) ∧
    (handleText (sampleEnv {}) initWorld "" "tok").2.outbox
      ≠ initWorld.outbox ++ [textRequest "tok" ""] := by
  refine ⟨by decide, by decide, by decide⟩

/-! ## Movie client -/

/-- C3: for every genre other than the four recognized ones the movie client
returns the zero Movie with the error "genre not recognized"; no URL is built
and the world is untouched, so no HTTP request is issued. -/
theorem fetchRandomMovie_unrecognized (env : Env) (w : World) (genre : String)
    (h : genre ∉ ["all", "romance", "comedy", "horror"]) :
    genreURL env.apiKey genre = none ∧
    fetchRandomMovie env w genre = (({}, some "genre not recognized"), w) ∧
    (fetchRandomMovie env w genre).2.requests = w.requests := by
  simp only [List.mem_cons, List.mem_singleton, List.mem_nil_iff, or_false, not_or] at h
  obtain ⟨h1, h2, h3, h4⟩ := h
  have hu : genreURL env.apiKey genre = none := by simp [genreURL, h1, h2, h3, h4]
  refine ⟨hu, ?_, ?_⟩ <;> simp [fetchRandomMovie, hu]

/-- Witness for C3 at the genre "unknown". -/
theorem fetchRandomMovie_unrecognized_witness :
    genreURL (sampleEnv {}).apiKey "unknown" = none ∧
    fetchRandomMovie (sampleEnv {}) initWorld "unknown"
      = (({}, some "genre not recognized"), initWorld) ∧
    (fetchRandomMovie (sampleEnv {}) initWorld "unknown").2.requests = initWorld.requests :=
  fetchRandomMovie_unrecognized (sampleEnv {}) initWorld "unknown" (by decide)


/-- Each recognized genre has a catalog URL. -/
theorem genreURL_recognized (apiKey genre : String)
    (hg : genre ∈ ["all", "romance", "comedy", "horror"]) :
    ∃ url, genreURL apiKey genre = some url := by
  simp only [List.mem_cons, List.mem_singleton, List.mem_nil_iff, or_false] at hg
  rcases hg with rfl | rfl | rfl | rfl <;> simp [genreURL]

/-- C4: for a recognized genre whose catalog response is read and decoded into
a list of N results, the movie client returns the error "no movies found" when
N = 0, and when N ≥ 1 returns, without error, the element of that list at an
index that is within range whatever the random source draws. -/
theorem fetchRandomMovie_parsed (env : Env) (w : World) (genre body : String)
    (resp : Response) (results : List Movie)
    (hg : genre ∈ ["all", "romance", "comedy", "horror"])
    (hget : ∀ url, genreURL env.apiKey genre = some url →
      env.httpGet w.requests.length url = .ok resp)
    (hread : resp.body = .ok body)
    (hjson : env.unmarshal body = .ok results) :
    (results.length = 0 →
      (fetchRandomMovie env w genre).1 = ({}, some "no movies found")) ∧
    (1 ≤ results.length →
      ∃ i, ∃ hi : i < results.length,
        i = Intn (env.randDraw w.requests.length) results.length ∧
        (fetchRandomMovie env w genre).1 = (results.get ⟨i, hi⟩, none) ∧
        results.get ⟨i, hi⟩ ∈ results) := by
  obtain ⟨url, hu⟩ := genreURL_recognized env.apiKey genre hg
  have hget' := hget url hu
  constructor
  · intro h0
    simp [fetchRandomMovie, hu, hget', hread, hjson, h0]
  · intro h1
    have hne : ¬ results.length = 0 := by omega
    refine ⟨Intn (env.randDraw w.requests.length) results.length,
      Nat.mod_lt _ (by omega), rfl, ?_, List.get_mem _ _ _⟩
    simp [fetchRandomMovie, hu, hget', hread, hjson, hne]

/-- Witness for C4: the comedy catalog answers with the single sample movie. -/
theorem fetchRandomMovie_parsed_witness :
    ([sampleMovie].length = 0 →
      (fetchRandomMovie (sampleEnv sampleMovie) initWorld "comedy").1
        = ({}, some "no movies found")) ∧
    (1 ≤ [sampleMovie].length →
      ∃ i, ∃ hi : i < [sampleMovie].length,
        i = Intn ((sampleEnv sampleMovie).randDraw initWorld.requests.length)
              [sampleMovie].length ∧
        (fetchRandomMovie (sampleEnv sampleMovie) initWorld "comedy").1
          = ([sampleMovie].get ⟨i, hi⟩, none) ∧
        [sampleMovie].get ⟨i, hi⟩ ∈ [sampleMovie]) :=
  fetchRandomMovie_parsed (sampleEnv sampleMovie) initWorld "comedy"
    "one" { body := .ok "one" } [sampleMovie] (by decide) (fun _ _ => rfl) rfl rfl

/-! ## Session state -/

/-- The session slot after `handleText`, in terms of the classifier and the
movie client. -/
theorem handleText_lastMovie (env : Env) (w : World) (t replyToken : String) :
    (handleText env w t replyToken).2.lastMovie =
      if (classify w.lastMovie t).1 = "" then w.lastMovie
      else
        match (fetchRandomMovie env w (classify w.lastMovie t).1).1 with
        | (m, none) => m
        | (_, some _) => w.lastMovie := by
  have hl : (handleText env w t replyToken).2.lastMovie =
      (genreStep env w (classify w.lastMovie t).1 (classify w.lastMovie t).2
        replyToken).2.lastMovie := by
    rw [handleText_eq]
    split <;> rfl
  rw [hl]
  by_cases hg : (classify w.lastMovie t).1 = ""
  · rw [hg, genreStep_no_genre]
    simp
  · rw [if_neg hg]
    have hfl := (fetchRandomMovie_frame env w (classify w.lastMovie t).1).1
    rcases hfr : fetchRandomMovie env w (classify w.lastMovie t).1 with ⟨⟨m, e⟩, w1⟩
    rw [hfr] at hfl
    cases e with
    | none => rw [genreStep_fetch_ok env w w1 _ _ _ m hg hfr]
    | some e =>
      rw [genreStep_fetch_error env w w1 _ _ _ e m hg hfr]
      exact hfl


/-- A text that is not a genre trigger selects no genre. -/
theorem classify_not_genreTrigger (lastMovie : Movie) (t : String)
    (ht : ∀ g, (t, g) ∉ genreTriggers) : (classify lastMovie t).1 = "" := by
  apply classify_no_genre
  · intro h; exact ht "all" (by simp [genreTriggers, h])
  · intro h; exact ht "romance" (by simp [genreTriggers, h])
  · intro h; exact ht "comedy" (by simp [genreTriggers, h])
  · intro h; exact ht "horror" (by simp [genreTriggers, h])

/-- C5: the session slot starts as the zero Movie; a genre trigger whose fetch
succeeds with m leaves exactly m in it, whatever the delivery of the carousel
does; a genre trigger whose fetch fails, and every text that is not a genre
trigger (the synopsis trigger and unrecognized text included), leave it
unchanged. -/
theorem lastMovie_slot (env : Env) (w : World) (t replyToken : String) :
    initWorld.lastMovie = {} ∧
    (∀ g m w1, (t, g) ∈ genreTriggers →
      fetchRandomMovie env w g = ((m, none), w1) →
      (handleText env w t replyToken).2.lastMovie = m) ∧
    (∀ g m err w1, (t, g) ∈ genreTriggers →
      fetchRandomMovie env w g = ((m, some err), w1) →
      (handleText env w t replyToken).2.lastMovie = w.lastMovie) ∧
    ((∀ g, (t, g) ∉ genreTriggers) →
      (handleText env w t replyToken).2.lastMovie = w.lastMovie) := by
  refine ⟨rfl, ?_, ?_, ?_⟩
  · intro g m w1 ht hf
    have hc := classify_genre w.lastMovie t g ht
    have hg := (genre_recognized env.apiKey t g ht).1
    rw [handleText_lastMovie, hc]
    simp [hg, hf]
  · intro g m err w1 ht hf
    have hc := classify_genre w.lastMovie t g ht
    have hg := (genre_recognized env.apiKey t g ht).1
    rw [handleText_lastMovie, hc]
    simp [hg, hf]
  · intro ht
    rw [handleText_lastMovie, classify_not_genreTrigger w.lastMovie t ht]
    simp

/-- Witness for C5: the comedy trigger in the initial state, with a catalog
that answers with the sample movie. -/
theorem lastMovie_slot_witness :
    (handleText (sampleEnv sampleMovie) initWorld "สุ่มหนังตลก" "tok").2.lastMovie
      = sampleMovie :=
  (lastMovie_slot (sampleEnv sampleMovie) initWorld "สุ่มหนังตลก" "tok").2.1
    "comedy" sampleMovie
    (fetchRandomMovie (sampleEnv sampleMovie) initWorld "comedy").2
    (by decide) (by decide)


/-! ## Synopsis -/

/-- A synopsis text is never empty. -/
theorem synopsis_text_ne_empty (overview : String) : "เรื่องย่อ: " ++ overview ≠ "" := by
  intro h
  have hl := congrArg String.length h
  rw [String.length_append] at hl
  have h11 : String.length "เรื่องย่อ: " = 11 := by decide
  have h0 : String.length "" = 0 := rfl
  omega

/-- The classifier on the synopsis trigger: no genre, and the synopsis text
decided by the title held in the session slot. -/
theorem classify_synopsis (lastMovie : Movie) :
    classify lastMovie "ขอเรื่องย่อหน่อย" =
      ("", if lastMovie.Title = "" then "ยังไม่มีหนังที่สุ่มมา"
           else "เรื่องย่อ: " ++ lastMovie.Overview) := by
  by_cases h : lastMovie.Title = "" <;> simp [classify, h]

/-- The synopsis trigger makes one reply call whose text depends on the title
held in the session slot. -/
theorem handleText_synopsis (env : Env) (w : World) (replyToken : String) :
    handleText env w "ขอเรื่องย่อหน่อย" replyToken =
      ReplyMessage env w (textRequest replyToken
        (if w.lastMovie.Title = "" then "ยังไม่มีหนังที่สุ่มมา"
         else "เรื่องย่อ: " ++ w.lastMovie.Overview)) := by
  rw [handleText_eq, classify_synopsis, genreStep_no_genre]
  by_cases h : w.lastMovie.Title = ""
  · simp only [h, if_true]
    rw [if_pos (by decide)]
  · simp only [h, if_false]
    rw [if_pos (synopsis_text_ne_empty _)]

/-- C6 (as amended): the synopsis trigger makes exactly one reply call.  Its
text is the fixed "no movie yet" text when the title held in the session slot
is empty, as in the initial state, and otherwise the synopsis label followed
by the overview held in the slot, so it ends with that overview.  After a genre
trigger whose fetch succeeded with m, the slot holds m, so the synopsis reply
is decided by m's title in that way. -/
theorem synopsis_reply (env : Env) (w : World) (replyToken : String) :
    (handleText env w "ขอเรื่องย่อหน่อย" replyToken =
      (env.replyMessage w.outbox.length (textRequest replyToken
          (if w.lastMovie.Title = "" then "ยังไม่มีหนังที่สุ่มมา"
           else "เรื่องย่อ: " ++ w.lastMovie.Overview)),
       { w with outbox := w.outbox ++ [textRequest replyToken
          (if w.lastMovie.Title = "" then "ยังไม่มีหนังที่สุ่มมา"
           else "เรื่องย่อ: " ++ w.lastMovie.Overview)] })) ∧
    (∀ m : Movie, m.Overview.data <:+ ("เรื่องย่อ: " ++ m.Overview).data) ∧
    (handleText env initWorld "ขอเรื่องย่อหน่อย" replyToken).2.outbox
      = [textRequest replyToken "ยังไม่มีหนังที่สุ่มมา"] ∧
    (∀ t g m w1 token, (t, g) ∈ genreTriggers →
      fetchRandomMovie env w g = ((m, none), w1) →
      (handleText env (handleText env w t token).2 "ขอเรื่องย่อหน่อย" replyToken).2.outbox
        = (handleText env w t token).2.outbox ++ [textRequest replyToken
            (if m.Title = "" then "ยังไม่มีหนังที่สุ่มมา"
             else "เรื่องย่อ: " ++ m.Overview)]) := by
  refine ⟨?_, ?_, ?_, ?_⟩
  · rw [handleText_synopsis]; rfl
  · intro m
    rw [String.data_append]
    exact List.suffix_append _ _
  · rw [handleText_synopsis]; rfl
  · intro t g m w1 token ht hf
    have hm : (handleText env w t token).2.lastMovie = m := by
      have hc := classify_genre w.lastMovie t g ht
      have hg := (genre_recognized env.apiKey t g ht).1
      rw [handleText_lastMovie, hc]
      simp [hg, hf]
    rw [handleText_synopsis, hm]
    rfl

/-- Witness for C6: the comedy trigger in the initial state with a catalog that
answers with the sample movie, then the synopsis trigger. -/
theorem synopsis_reply_witness :
    (handleText (sampleEnv sampleMovie)
        (handleText (sampleEnv sampleMovie) initWorld "สุ่มหนังตลก" "tok1").2
        "ขอเรื่องย่อหน่อย" "tok2").2.outbox
      = (handleText (sampleEnv sampleMovie) initWorld "สุ่มหนังตลก" "tok1").2.outbox
          ++ [textRequest "tok2"
            (if sampleMovie.Title = "" then "ยังไม่มีหนังที่สุ่มมา"
             else "เรื่องย่อ: " ++ sampleMovie.Overview)] :=
  (synopsis_reply (sampleEnv sampleMovie) initWorld "tok2").2.2.2
    "สุ่มหนังตลก" "comedy" sampleMovie
    (fetchRandomMovie (sampleEnv sampleMovie) initWorld "comedy").2 "tok1"
    (by decide) (by decide)

/-- C6 (as stated) fails for a fetched movie with an empty title: after the
"all" trigger has fetched and stored such a movie, the synopsis trigger answers
with the fixed "no movie yet" text, which does not contain the overview. -/
theorem synopsis_empty_title_no_overview :
    (fetchRandomMovie (sampleEnv { Title := "", Poster := "p.jpg", Overview := "A plot." })
        initWorld "all").1
      = ({ Title := "", Poster := "p.jpg", Overview := "A plot." }, none) ∧
    (handleText (sampleEnv { Title := "", Poster := "p.jpg", Overview := "A plot." })
        initWorld "สุ่มหนัง" "tok1").2.lastMovie
      = { Title := "", Poster := "p.jpg", Overview := "A plot." } ∧
    (handleText (sampleEnv { Title := "", Poster := "p.jpg", Overview := "A plot." })
        (handleText (sampleEnv { Title := "", Poster := "p.jpg", Overview := "A plot." })
          initWorld "สุ่มหนัง" "tok1").2
        "ขอเรื่องย่อหน่อย" "tok2").2.outbox
      = [movieTemplateRequest "tok1" { Title := "", Poster := "p.jpg", Overview := "A plot." },
         textRequest "tok2" "ยังไม่มีหนังที่สุ่มมา"] ∧
    ¬ ("A plot.".data <:+: "ยังไม่มีหนังที่สุ่มมา".data) := by
  refine ⟨by decide, by decide, by decide, by decide⟩


/-! ## Outbox of the handlers -/

/-- A selected genre comes with an empty response text. -/
theorem classify_genre_text (lastMovie : Movie) (t : String)
    (h : (classify lastMovie t).1 ≠ "") : (classify lastMovie t).2 = "" := by
  unfold classify at h ⊢
  repeat' split
  all_goals first | rfl | (exfalso; simp_all)

/-- Only the empty text leaves both the genre and the response text empty. -/
theorem classify_empty (lastMovie : Movie) (t : String)
    (h1 : (classify lastMovie t).1 = "") (h2 : (classify lastMovie t).2 = "") :
    t = "" := by
  unfold classify at h1 h2
  split at h2
  · simp_all
  split at h2
  · simp_all
  split at h2
  · simp_all
  split at h2
  · simp_all
  split at h2
  · split at h2
    · exact absurd h2 (by decide)
    · exact absurd h2 (synopsis_text_ne_empty _)
  · exact h2

/-- Every request built around a response text carries the menu and the reply
token. -/
theorem textRequest_menu (replyToken s : String) :
    lastQuickReply (textRequest replyToken s) = some quickReplyMenu ∧
    (textRequest replyToken s).ReplyToken = replyToken := ⟨rfl, rfl⟩

/-- The carousel request carries the menu on its last message, and the reply
token. -/
theorem movieTemplateRequest_menu (replyToken : String) (m : Movie) :
    lastQuickReply (movieTemplateRequest replyToken m) = some quickReplyMenu ∧
    (movieTemplateRequest replyToken m).ReplyToken = replyToken := ⟨rfl, rfl⟩

/-- The text handler only appends to the outbox; what it appends is addressed
to the event's reply token and carries the menu, and it appends something
unless the text is empty. -/
theorem handleText_outbox (env : Env) (w : World) (t replyToken : String) :
    ∃ new, (handleText env w t replyToken).2.outbox = w.outbox ++ new ∧
      (∀ r ∈ new, lastQuickReply r = some quickReplyMenu ∧ r.ReplyToken = replyToken) ∧
      (t ≠ "" → new ≠ []) := by
  rw [handleText_eq]
  by_cases hg : (classify w.lastMovie t).1 = ""
  · rw [hg, genreStep_no_genre]
    by_cases hr : (classify w.lastMovie t).2 = ""
    · refine ⟨[], ?_, by simp, fun ht => absurd (classify_empty _ _ hg hr) ht⟩
      simp [hr]
    · refine ⟨[textRequest replyToken (classify w.lastMovie t).2], ?_, ?_, by simp⟩
      · simp [hr, ReplyMessage]
      · intro r hrm
        rw [List.mem_singleton] at hrm
        rw [hrm]
        exact textRequest_menu _ _
  · have hfo := (fetchRandomMovie_frame env w (classify w.lastMovie t).1).2
    rcases hfr : fetchRandomMovie env w (classify w.lastMovie t).1 with ⟨⟨m, e⟩, w1⟩
    rw [hfr] at hfo
    simp only at hfo
    cases e with
    | some e =>
      rw [genreStep_fetch_error env w w1 _ _ _ e m hg hfr]
      refine ⟨[textRequest replyToken
        "เกิดข้อผิดพลาดไม่สามารถดึงข้อมูลหนังได้ ลองใหม่อีกครั้ง"], ?_, ?_, by simp⟩
      · have hne : ("เกิดข้อผิดพลาดไม่สามารถดึงข้อมูลหนังได้ ลองใหม่อีกครั้ง" : String) ≠ "" := by
          decide
        simp only []
        rw [if_pos hne]
        simp [ReplyMessage, hfo]
      · intro r hrm
        rw [List.mem_singleton] at hrm
        rw [hrm]
        exact textRequest_menu _ _
    | none =>
      rw [genreStep_fetch_ok env w w1 _ _ _ m hg hfr, classify_genre_text _ _ hg]
      cases hd : env.replyMessage w1.outbox.length (movieTemplateRequest replyToken m) with
      | none =>
        refine ⟨[movieTemplateRequest replyToken m], ?_, ?_, by simp⟩
        · simp [hfo]
        · intro r hrm
          rw [List.mem_singleton] at hrm
          rw [hrm]
          exact movieTemplateRequest_menu _ _
      | some e =>
        refine ⟨[movieTemplateRequest replyToken m,
          textRequest replyToken "เกิดข้อผิดพลาดในการส่งข้อความ"], ?_, ?_, by simp⟩
        · have hne : ("เกิดข้อผิดพลาดในการส่งข้อความ" : String) ≠ "" := by decide
          simp only []
          rw [if_pos hne]
          simp [ReplyMessage, hfo]
        · intro r hrm
          simp only [List.mem_cons, List.mem_singleton, List.mem_nil_iff, or_false] at hrm
          rcases hrm with rfl | rfl
          · exact movieTemplateRequest_menu _ _
          · exact textRequest_menu _ _

/-- Handling one event only appends to the outbox, and what it appends carries
the menu. -/
theorem handleEvent_outbox (env : Env) (w : World) (event : Event) :
    ∃ new, (handleEvent env w event).outbox = w.outbox ++ new ∧
      ∀ r ∈ new, lastQuickReply r = some quickReplyMenu := by
  cases event with
  | MessageEvent replyToken message =>
    cases message with
    | FollowEvent =>
      refine ⟨[greetingRequest replyToken], rfl, ?_⟩
      intro r hrm
      rw [List.mem_singleton] at hrm
      rw [hrm]
      rfl
    | TextMessageContent text =>
      obtain ⟨new, h1, h2, _⟩ := handleText_outbox env w text replyToken
      exact ⟨new, h1, fun r hrm => (h2 r hrm).1⟩
    | other => exact ⟨[], by simp [handleEvent], by simp⟩
  | FollowEvent replyToken => exact ⟨[], by simp [handleEvent], by simp⟩
  | other => exact ⟨[], by simp [handleEvent], by simp⟩

/-- The loop only appends to the outbox, and what it appends carries the
menu. -/
theorem eventLoop_outbox (env : Env) (events : List Event) :
    ∀ w : World, ∃ new, (eventLoop env w events).outbox = w.outbox ++ new ∧
      ∀ r ∈ new, lastQuickReply r = some quickReplyMenu := by
  induction events with
  | nil => intro w; exact ⟨[], by simp [eventLoop], by simp⟩
  | cons event rest ih =>
    intro w
    obtain ⟨n1, h1, h1m⟩ := handleEvent_outbox env w event
    obtain ⟨n2, h2, h2m⟩ := ih (handleEvent env w event)
    refine ⟨n1 ++ n2, ?_, ?_⟩
    · simp only [eventLoop]
      rw [h2, h1, List.append_assoc]
    · intro r hrm
      rcases List.mem_append.mp hrm with h | h
      · exact h1m r h
      · exact h2m r h

/-- The loop over a concatenation is the loop over the second part, started
where the loop over the first part ended. -/
theorem eventLoop_append (env : Env) (es1 es2 : List Event) :
    ∀ w : World, eventLoop env w (es1 ++ es2) = eventLoop env (eventLoop env w es1) es2 := by
  induction es1 with
  | nil => intro w; rfl
  | cons event rest ih => intro w; simp only [List.cons_append, eventLoop]; exact ih _


/-! ## Webhook handler -/

/-- C7 (evaluation of the code): a follow event in the batch matches no case of
the outer type switch, so the handler answers 200 and sends nothing; the
greeting is sent only for a message event whose message field holds a value of
type `webhook.FollowEvent`. -/
theorem follow_event_not_greeted (env : Env) (w : World) (replyToken : String) :
    HandleEvents env w (.ok [Event.FollowEvent replyToken]) = (200, w) ∧
    (HandleEvents env w (.ok [Event.FollowEvent replyToken])).2.outbox = w.outbox ∧
    HandleEvents env w (.ok [Event.MessageEvent replyToken MessageContent.FollowEvent])
      = (200, { w with outbox := w.outbox ++ [greetingRequest replyToken] }) :=
  ⟨rfl, rfl, rfl⟩

/-- C8: the status is 400 exactly when parsing fails, and then nothing is sent
and the state is untouched; otherwise the status is 200 and the loop has run
over the whole batch: each event is handled in the state left by the events
before it, and the events after it are handled in the state it leaves,
whatever the fetches and deliveries answered.  In particular every text event
with a non-empty text gets a reply call addressed to its reply token, right
after the calls of the earlier events. -/
theorem HandleEvents_status (env : Env) (w : World)
    (parsed : Except String (List Event)) :
    ((HandleEvents env w parsed).1 = 400 ↔ ∃ err, parsed = .error err) ∧
    (∀ err, parsed = .error err → HandleEvents env w parsed = (400, w)) ∧
    (∀ events, parsed = .ok events → (HandleEvents env w parsed).1 = 200) ∧
    (∀ es1 event es2, parsed = .ok (es1 ++ event :: es2) →
      (HandleEvents env w parsed).2
        = eventLoop env (handleEvent env (eventLoop env w es1) event) es2) ∧
    (∀ es1 replyToken t es2, t ≠ "" →
      parsed = .ok (es1 ++ Event.MessageEvent replyToken (.TextMessageContent t) :: es2) →
      ∃ r rest, (HandleEvents env w parsed).2.outbox
          = (eventLoop env w es1).outbox ++ r :: rest ∧ r.ReplyToken = replyToken) := by
  refine ⟨?_, ?_, ?_, ?_, ?_⟩
  · cases parsed with
    | error err => simp [HandleEvents]
    | ok events => simp [HandleEvents]
  · intro err h
    rw [h]
    rfl
  · intro events h
    rw [h]
    rfl
  · intro es1 event es2 h
    rw [h]
    simp only [HandleEvents]
    rw [eventLoop_append]
    rfl
  · intro es1 replyToken t es2 ht h
    rw [h]
    simp only [HandleEvents]
    rw [eventLoop_append]
    simp only [eventLoop, handleEvent]
    obtain ⟨new, h1, h2, h3⟩ := handleText_outbox env (eventLoop env w es1) t replyToken
    obtain ⟨n2, h4, _⟩ := eventLoop_outbox env es2
      (handleText env (eventLoop env w es1) t replyToken).2
    cases new with
    | nil => exact absurd rfl (h3 ht)
    | cons r new' =>
      refine ⟨r, new' ++ n2, ?_, (h2 r (List.mem_cons_self _ _)).2⟩
      rw [h4, h1]
      simp

/-- Witness for C8: a batch of two text events while the catalog and every
delivery fail; the second event still gets its reply call. -/
theorem HandleEvents_status_witness :
    ∃ r rest,
      (HandleEvents failingEnv initWorld
          (.ok ([Event.MessageEvent "tok1" (.TextMessageContent "สุ่มหนัง")]
            ++ Event.MessageEvent "tok2" (.TextMessageContent "hi") :: []))).2.outbox
        = (eventLoop failingEnv initWorld
            [Event.MessageEvent "tok1" (.TextMessageContent "สุ่มหนัง")]).outbox
          ++ r :: rest ∧
      r.ReplyToken = "tok2" :=
  (HandleEvents_status failingEnv initWorld
      (.ok ([Event.MessageEvent "tok1" (.TextMessageContent "สุ่มหนัง")]
        ++ Event.MessageEvent "tok2" (.TextMessageContent "hi") :: []))).2.2.2.2
    [Event.MessageEvent "tok1" (.TextMessageContent "สุ่มหนัง")] "tok2" "hi" []
    (by decide) rfl


/-! ## Quick-reply menu -/

/-- C9: every request the handler passes to the delivery call carries the same
quick-reply menu on its last message, and so does each of the three requests
the code builds (greeting; carousel; text reply, which serves the synopsis,
both error texts and the echo).  The menu has exactly four items, in the order
of the four genre triggers, each with its label equal to its text, and the
classifier maps each text to a genre the movie client recognizes. -/
theorem quick_reply_menu_invariant (env : Env) (w : World)
    (parsed : Except String (List Event)) :
    (∃ new, (HandleEvents env w parsed).2.outbox = w.outbox ++ new ∧
      ∀ r ∈ new, lastQuickReply r = some quickReplyMenu) ∧
    (∀ replyToken, lastQuickReply (greetingRequest replyToken) = some quickReplyMenu) ∧
    (∀ replyToken m,
      lastQuickReply (movieTemplateRequest replyToken m) = some quickReplyMenu) ∧
    (∀ replyToken s, lastQuickReply (textRequest replyToken s) = some quickReplyMenu) ∧
    quickReplyMenu.Items.length = 4 ∧
    quickReplyMenu.Items.map (fun item => item.Action.Text)
      = ["สุ่มหนัง", "สุ่มหนังรัก", "สุ่มหนังตลก", "สุ่มหนังผี"] ∧
    (∀ item ∈ quickReplyMenu.Items, item.Action.Label = item.Action.Text) ∧
    (∀ item ∈ quickReplyMenu.Items, ∀ lastMovie apiKey,
      (classify lastMovie item.Action.Text).1 ∈ ["all", "romance", "comedy", "horror"] ∧
      (genreURL apiKey (classify lastMovie item.Action.Text).1).isSome = true) := by
  refine ⟨?_, fun _ => rfl, fun _ _ => rfl, fun _ _ => rfl, rfl, rfl, by decide, ?_⟩
  · cases parsed with
    | error err => exact ⟨[], by simp [HandleEvents], by simp⟩
    | ok events => exact eventLoop_outbox env events w
  · intro item hi lastMovie apiKey
    simp only [quickReplyMenu, List.map_cons, List.map_nil, List.mem_cons,
      List.mem_singleton, List.mem_nil_iff, or_false] at hi
    rcases hi with rfl | rfl | rfl | rfl <;> simp [classify, genreURL]

/-- Witness for C9: a batch with a greeting, a genre trigger whose carousel is
delivered, a synopsis request and an echo; all four requests carry the menu. -/
theorem quick_reply_menu_invariant_witness :
    (HandleEvents (sampleEnv sampleMovie) initWorld
        (.ok [Event.MessageEvent "tok0" MessageContent.FollowEvent,
              Event.MessageEvent "tok1" (.TextMessageContent "สุ่มหนังผี"),
              Event.MessageEvent "tok2" (.TextMessageContent "ขอเรื่องย่อหน่อย"),
              Event.MessageEvent "tok3" (.TextMessageContent "hi")])).2.outbox
      = [greetingRequest "tok0", movieTemplateRequest "tok1" sampleMovie,
         textRequest "tok2" "เรื่องย่อ: A plot.", textRequest "tok3" "hi"] ∧
    ∃ new, (HandleEvents (sampleEnv sampleMovie) initWorld
        (.ok [Event.MessageEvent "tok0" MessageContent.FollowEvent,
              Event.MessageEvent "tok1" (.TextMessageContent "สุ่มหนังผี"),
              Event.MessageEvent "tok2" (.TextMessageContent "ขอเรื่องย่อหน่อย"),
              Event.MessageEvent "tok3" (.TextMessageContent "hi")])).2.outbox
        = initWorld.outbox ++ new ∧
      ∀ r ∈ new, lastQuickReply r = some quickReplyMenu :=
  ⟨by decide, (quick_reply_menu_invariant (sampleEnv sampleMovie) initWorld _).1⟩

/-! ## Movie carousel -/

/-- C10: for a genre trigger whose fetch succeeds with m and whose carousel is
delivered, the handler makes exactly one reply call and returns no error; the
request holds two messages, a carousel of two identical columns (title of m,
poster URL of m, one action labelled "เรื่องย่อ" that sends the synopsis trigger)
and then the closing text with the menu; no text reply follows, and the
session slot holds m. -/
theorem genre_reply_delivered (env : Env) (w w1 : World) (t g replyToken : String)
    (m : Movie) (ht : (t, g) ∈ genreTriggers)
    (hf : fetchRandomMovie env w g = ((m, none), w1))
    (hd : env.replyMessage w.outbox.length (movieTemplateRequest replyToken m) = none) :
    handleText env w t replyToken =
      (none, { w1 with lastMovie := m,
                       outbox := w.outbox ++ [movieTemplateRequest replyToken m] }) ∧
    (handleText env w t replyToken).2.lastMovie = m ∧
    movieTemplateRequest replyToken m =
      { ReplyToken := replyToken,
        Messages := [
          .TemplateMessage "ส่งหนังให้คุณ"
            (List.replicate 2
              { ThumbnailImageUrl := "https://image.tmdb.org/t/p/w500/" ++ m.Poster,
                Title := m.Title,
                Text := "  ",
                Actions := [ { Label := "เรื่องย่อ", Text := "ขอเรื่องย่อหน่อย" } ] })
            none,
          .TextMessage "หวังว่าคุณจะชอบนะ" (some quickReplyMenu) ] } ∧
    (∀ lastMovie : Movie, classify lastMovie "ขอเรื่องย่อหน่อย" =
      ("", if lastMovie.Title = "" then "ยังไม่มีหนังที่สุ่มมา"
           else "เรื่องย่อ: " ++ lastMovie.Overview)) := by
  have hfo : w1.outbox = w.outbox := by
    have := (fetchRandomMovie_frame env w g).2
    rw [hf] at this
    exact this
  have hg := (genre_recognized env.apiKey t g ht).1
  have hc := classify_genre w.lastMovie t g ht
  have hmain : handleText env w t replyToken =
      (none, { w1 with lastMovie := m,
                       outbox := w.outbox ++ [movieTemplateRequest replyToken m] }) := by
    rw [handleText_eq, hc, genreStep_fetch_ok env w w1 g "" replyToken m hg hf, hfo, hd]
    simp
  refine ⟨hmain, ?_, rfl, classify_synopsis⟩
  rw [hmain]


/-- Witness for C10: the comedy trigger in the initial state, with a catalog
that answers with the sample movie titled "X" and a delivery that succeeds. -/
theorem genre_reply_delivered_witness :
    handleText (sampleEnv sampleMovie) initWorld "สุ่มหนังตลก" "tok" =
      (none,
       { (fetchRandomMovie (sampleEnv sampleMovie) initWorld "comedy").2 with
           lastMovie := sampleMovie,
           outbox := initWorld.outbox ++ [movieTemplateRequest "tok" sampleMovie] }) ∧
    (handleText (sampleEnv sampleMovie) initWorld "สุ่มหนังตลก" "tok").2.lastMovie
      = sampleMovie :=
  ⟨(genre_reply_delivered (sampleEnv sampleMovie) initWorld
      (fetchRandomMovie (sampleEnv sampleMovie) initWorld "comedy").2
      "สุ่มหนังตลก" "comedy" "tok" sampleMovie (by decide) (by decide) rfl).1,
   (genre_reply_delivered (sampleEnv sampleMovie) initWorld
      (fetchRandomMovie (sampleEnv sampleMovie) initWorld "comedy").2
      "สุ่มหนังตลก" "comedy" "tok" sampleMovie (by decide) (by decide) rfl).2.1⟩

end LineBot
